import Mathlib

/-!
Shallow embedding of the AI-Text-summarization client
(`src/App.tsx` and `src/services/geminiService.ts`).

The app is a React single-page application.  The state of the `App`
component (React `useState` hooks, `App.tsx` lines 72-76) is embedded as
the structure `AppState`.  The submit handler (`handleSubmit`, `App.tsx`
lines 78-100) is embedded as a function from the pre-state and the
outcome of the awaited `summarizeText` call to the post-state, paired
with a flag recording whether the Summarization Client was invoked.
The Summarization Client (`summarizeText`, `geminiService.ts` lines
28-51) is embedded with the environment credential and the network
outcome as explicit parameters.  The prompt builder (`getPrompt`,
`geminiService.ts` lines 4-26) is a pure function and is embedded
directly.

JavaScript string primitives used by the code (`String.prototype.trim`,
`String.prototype.startsWith`) are modelled at the character-list level,
because Lean's own `String.trim`/`String.startsWith` are defined through
well-founded recursion on byte positions and do not reduce in the
kernel.  The models below have the same semantics on the character
sequences involved.
-/

/-- Character test used by the `jsTrim` model.  JavaScript `trim` strips
`WhiteSpace` and `LineTerminator` code points; this list covers the
ASCII whitespace characters together with NBSP, the Unicode space
separators, the line/paragraph separators and the BOM. -/
def isJsWhitespace (c : Char) : Bool :=
  [' ', '\t', '\n', '\r', '\x0b', '\x0c', '\u00A0', '\u1680',
   '\u2000', '\u2001', '\u2002', '\u2003', '\u2004', '\u2005', '\u2006',
   '\u2007', '\u2008', '\u2009', '\u200A', '\u2028', '\u2029', '\u202F',
   '\u205F', '\u3000', '\uFEFF'].contains c

/-- Model of JavaScript `String.prototype.trim`: drop whitespace from
both ends of the character sequence. -/
def jsTrim (s : String) : String :=
  ⟨((s.data.dropWhile isJsWhitespace).reverse.dropWhile isJsWhitespace).reverse⟩

/-- Model of JavaScript `String.prototype.startsWith` on character
lists: `startsWithChars pat l` is true iff `pat` is a prefix of `l`. -/
def startsWithChars : List Char → List Char → Bool
  | [], _ => true
  | _ :: _, [] => false
  | a :: as, b :: bs => a == b && startsWithChars as bs

/-- Model of JavaScript `String.prototype.startsWith`. -/
def startsWithStr (s pat : String) : Bool :=
  startsWithChars pat.data s.data

/-- Substring search on character lists: `containsChars pat l` is true
iff `pat` occurs contiguously inside `l`. -/
def containsChars (pat : List Char) : List Char → Bool
  | [] => startsWithChars pat []
  | c :: rest => startsWithChars pat (c :: rest) || containsChars pat rest

/-- `strContainsB s pat` is true iff `pat` occurs verbatim as a
contiguous substring of `s`. -/
def strContainsB (s pat : String) : Bool :=
  containsChars pat.data s.data

/-- The `SummaryLength` enum from `types.ts` (imported by both source
files; its three members `SHORT`, `MEDIUM`, `LONG` are visible from the
`switch` in `geminiService.ts` lines 6-16 and the length-selector in
`App.tsx` line 121). -/
inductive SummaryLength where
  | short
  | medium
  | long

/-- The prompt builder `getPrompt` (`geminiService.ts` lines 4-26):
a fixed instruction, the length directive chosen by the `switch`, the
article body and the closing `SUMMARY:` cue. -/
def getPrompt (text : String) (length : SummaryLength) : String :=
  let lengthInstruction :=
    match length with
    | SummaryLength.short => "a few concise sentences (around 50 words)"
    | SummaryLength.medium => "a detailed paragraph (around 150 words)"
    | SummaryLength.long => "several detailed paragraphs (around 300 words)"
  "Please provide an abstractive summary of the following article. The summary should capture the key points and main ideas in your own words, rather than just extracting sentences. The desired length is "
    ++ lengthInstruction
    ++ ".\n\nARTICLE:\n---\n"
    ++ text
    ++ "\n---\n\nSUMMARY:"

/-- Outcome of the `ai.models.generateContent` call awaited inside
`summarizeText` (`geminiService.ts` lines 38-41): the call either
returns a response whose `text` field is a string, or throws an `Error`
object carrying a message, or throws a non-`Error` value. -/
inductive ApiOutcome where
  | ok (text : String)
  | errObj (message : String)
  | thrownNonError

/-- The Summarization Client `summarizeText` (`geminiService.ts` lines
28-51).  `apiKey` is `process.env.API_KEY` (`none` when unset; the code
tests JavaScript falsiness, so the empty string also fails the check).
A missing credential throws inside the `try` block and is caught by the
same `catch`, producing the `Failed ...` sentinel with the `Error`
message; a thrown `Error` during the call produces the same sentinel
with its message; a non-`Error` throw produces the generic unknown-error
sentinel.  On success the response text is returned unmodified.
The prompt `getPrompt text length` is built and sent but does not
influence which branch is taken, so it does not appear in the result. -/
def summarizeText (apiKey : Option String) (api : ApiOutcome)
    (text : String) (length : SummaryLength) : String :=
  if apiKey.getD "" = "" then
    "Failed to generate summary. Error: API_KEY environment variable is not set."
  else
    match api with
    | ApiOutcome.ok t => t
    | ApiOutcome.errObj m => "Failed to generate summary. Error: " ++ m
    | ApiOutcome.thrownNonError =>
        "An unknown error occurred while generating the summary."

/-- The React state of the `App` component (`App.tsx` lines 72-76):
`inputText`, `summary`, `isLoading`, `error`, `summaryLength`. -/
structure AppState where
  inputText : String
  summary : String
  isLoading : Bool
  error : String
  summaryLength : SummaryLength

/-- Outcome of the awaited `summarizeText(inputText, summaryLength)`
call as seen by `handleSubmit` (`App.tsx` line 89): the promise either
resolves with a string, or rejects with an `Error` (whose message is
used), or rejects with a non-`Error` value. -/
inductive SubmitOutcome where
  | resolves (result : String)
  | throwsError (message : String)
  | throwsNonError

/-- The validation message set by `handleSubmit` when the trimmed input
is empty (`App.tsx` line 80). -/
def validationMessage : String := "Please enter some text to summarize."

/-- The failure test applied to the resolved result (`App.tsx` line 90):
`result.startsWith('Failed') || result.startsWith('An unknown error')`. -/
def isFailureResult (r : String) : Bool :=
  startsWithStr r "Failed" || startsWithStr r "An unknown error"

/-- The submit handler `handleSubmit` (`App.tsx` lines 78-100), as a
function of the pre-state and the outcome of the awaited client call.
The second component records whether `summarizeText` was invoked: the
early validation return (lines 79-82) happens before the call.
Otherwise the handler sets `isLoading` and clears `error` and `summary`
(lines 84-86), dispatches on the outcome (lines 88-96), and finally
clears `isLoading` (lines 97-99). -/
def handleSubmit (st : AppState) (o : SubmitOutcome) : AppState × Bool :=
  if jsTrim st.inputText = "" then
    ({ st with error := validationMessage }, false)
  else
    let loading : AppState := { st with isLoading := true, error := "", summary := "" }
    let settled : AppState :=
      match o with
      | SubmitOutcome.resolves r =>
          if isFailureResult r then { loading with error := r }
          else { loading with summary := r }
      | SubmitOutcome.throwsError m => { loading with error := m }
      | SubmitOutcome.throwsNonError =>
          { loading with error := "An unexpected error occurred." }
    ({ settled with isLoading := false }, true)

/-- Disabled condition of the submit button (`App.tsx` line 139):
`disabled={isLoading || !inputText.trim()}`. -/
def submitDisabled (st : AppState) : Bool :=
  st.isLoading || jsTrim st.inputText == ""

/-- Disabled condition of the textarea (`App.tsx` line 114):
`disabled={isLoading}`. -/
def textareaDisabled (st : AppState) : Bool :=
  st.isLoading

/-- Render condition of the error banner (`App.tsx` line 158):
`{error && ...}` — shown iff `error` is a non-empty string. -/
def errorBannerShown (st : AppState) : Bool :=
  st.error != ""

/-- Render condition of the summary panel (`App.tsx` line 164):
`{summary && !isLoading && ...}`. -/
def summaryPanelShown (st : AppState) : Bool :=
  st.summary != "" && !st.isLoading

/-- User-visible events of the `App` component: editing the textarea
(`App.tsx` line 111), clicking a length-selector button (line 124), and
clicking the submit button (line 138) with the outcome its client call
will have. -/
inductive Event where
  | setText (s : String)
  | setLength (l : SummaryLength)
  | submit (o : SubmitOutcome)

/-- The initial state of the component (`App.tsx` lines 72-76): all
strings empty, not loading, length defaulting to `MEDIUM`. -/
def initState : AppState :=
  { inputText := "", summary := "", isLoading := false,
    error := "", summaryLength := SummaryLength.medium }

/-- One UI step.  A disabled control fires no event: editing requires
the textarea to be enabled, and submitting requires the submit button to
be enabled; the length-selector buttons are never disabled. -/
inductive Step : AppState → Event → AppState → Prop where
  | setText (st : AppState) (s : String) (h : textareaDisabled st = false) :
      Step st (Event.setText s) { st with inputText := s }
  | setLength (st : AppState) (l : SummaryLength) :
      Step st (Event.setLength l) { st with summaryLength := l }
  | submit (st : AppState) (o : SubmitOutcome) (h : submitDisabled st = false) :
      Step st (Event.submit o) (handleSubmit st o).1

/-- States reachable from the initial state through UI events. -/
inductive Reachable : AppState → Prop where
  | init : Reachable initState
  | step {st st' : AppState} {e : Event} :
      Reachable st → Step st e st' → Reachable st'

/-- The word-count phrase that the length directive of `getPrompt`
embeds for each `SummaryLength` value (`geminiService.ts` lines 6-16:
the directive reads `(around 50 words)`, `(around 150 words)`,
`(around 300 words)`). -/
def lengthPhrase : SummaryLength → String
  | SummaryLength.short => "around 50 words"
  | SummaryLength.medium => "around 150 words"
  | SummaryLength.long => "around 300 words"

/-- `startsWithChars pat l` decides whether `pat` is a prefix of `l`. -/
theorem startsWithChars_iff (pat : List Char) : ∀ l : List Char,
    startsWithChars pat l = true ↔ ∃ t, l = pat ++ t := by
  induction pat with
  | nil => intro l; simp [startsWithChars]
  | cons a as ih =>
    intro l
    cases l with
    | nil => simp [startsWithChars]
    | cons b bs =>
      simp only [startsWithChars, Bool.and_eq_true, beq_iff_eq, ih]
      constructor
      · rintro ⟨rfl, t, rfl⟩
        exact ⟨t, rfl⟩
      · rintro ⟨t, ht⟩
        injection ht with h1 h2
        exact ⟨h1.symm, t, h2⟩

/-- `containsChars pat l` decides whether `pat` occurs contiguously
inside `l`. -/
theorem containsChars_iff (pat : List Char) : ∀ l : List Char,
    containsChars pat l = true ↔ ∃ u v, l = u ++ pat ++ v := by
  intro l
  induction l with
  | nil =>
    simp only [containsChars, startsWithChars_iff]
    constructor
    · rintro ⟨t, ht⟩
      exact ⟨[], t, by simpa using ht⟩
    · rintro ⟨u, v, huv⟩
      refine ⟨v, ?_⟩
      rcases List.append_eq_nil.mp ((List.append_eq_nil.mp huv.symm).1) with ⟨rfl, rfl⟩
      simpa using huv
  | cons c rest ih =>
    simp only [containsChars, Bool.or_eq_true, startsWithChars_iff, ih]
    constructor
    · rintro (⟨t, ht⟩ | ⟨u, v, rfl⟩)
      · exact ⟨[], t, by simpa using ht⟩
      · exact ⟨c :: u, v, rfl⟩
    · rintro ⟨u, v, h⟩
      cases u with
      | nil => exact Or.inl ⟨v, by simpa using h⟩
      | cons u0 us =>
        injection h with h1 h2
        exact Or.inr ⟨us, v, h2⟩

/-- String-level characterization of `strContainsB`: the pattern occurs
iff the string splits as `pre ++ pat ++ post`. -/
theorem strContainsB_iff (s pat : String) :
    strContainsB s pat = true ↔ ∃ pre post : String, s = pre ++ pat ++ post := by
  rw [strContainsB, containsChars_iff]
  constructor
  · rintro ⟨u, v, h⟩
    refine ⟨⟨u⟩, ⟨v⟩, String.ext ?_⟩
    simpa [String.data_append] using h
  · rintro ⟨pre, post, rfl⟩
    exact ⟨pre.data, post.data, by simp [String.data_append]⟩

/-- A submit button that is not disabled means: not loading, and the
trimmed input is non-empty (`App.tsx` line 139). -/
theorem submitDisabled_false (st : AppState) (h : submitDisabled st = false) :
    st.isLoading = false ∧ ¬ jsTrim st.inputText = "" := by
  simp only [submitDisabled, Bool.or_eq_false_iff, beq_eq_false_iff_ne, ne_eq] at h
  exact h

/-- Claim C1: for every resolved result string that does not match the
failure-prefix convention (`App.tsx` line 90), the controller ends in
the Success state — `summary` equals the result unmodified, `error` is
empty, and loading is over. -/
theorem handleSubmit_success_state (st : AppState) (r : String)
    (hin : ¬ jsTrim st.inputText = "")
    (hr : isFailureResult r = false) :
    ((handleSubmit st (SubmitOutcome.resolves r)).1).summary = r
    ∧ ((handleSubmit st (SubmitOutcome.resolves r)).1).error = ""
    ∧ ((handleSubmit st (SubmitOutcome.resolves r)).1).isLoading = false := by
  refine ⟨?_, ?_, ?_⟩ <;> simp [handleSubmit, hin, hr]

/-- Claim C1 witness: the stub result `"This is a summary."` lands in
Success with that exact summary and no error. -/
theorem handleSubmit_success_state_witness :
    (¬ jsTrim (AppState.mk "Some article text." "" false "" SummaryLength.medium).inputText = "")
    ∧ isFailureResult "This is a summary." = false
    ∧ (((handleSubmit (AppState.mk "Some article text." "" false "" SummaryLength.medium)
          (SubmitOutcome.resolves "This is a summary.")).1).summary = "This is a summary."
        ∧ ((handleSubmit (AppState.mk "Some article text." "" false "" SummaryLength.medium)
          (SubmitOutcome.resolves "This is a summary.")).1).error = ""
        ∧ ((handleSubmit (AppState.mk "Some article text." "" false "" SummaryLength.medium)
          (SubmitOutcome.resolves "This is a summary.")).1).isLoading = false) := by
  refine ⟨by decide, by decide, ?_⟩
  exact handleSubmit_success_state _ _ (by decide) (by decide)

/-- Claim C2: a resolved result carrying the failure marker lands in
the Error state with that exact message and empty summary; a rejected
call lands in Error with the exception message, or with the generic
fallback when the thrown value is not an `Error` (`App.tsx` lines
88-99). -/
theorem handleSubmit_error_state (st : AppState) (r m : String)
    (hin : ¬ jsTrim st.inputText = "")
    (hr : startsWithStr r "Failed" = true) :
    (((handleSubmit st (SubmitOutcome.resolves r)).1).error = r
      ∧ ((handleSubmit st (SubmitOutcome.resolves r)).1).summary = ""
      ∧ ((handleSubmit st (SubmitOutcome.resolves r)).1).isLoading = false)
    ∧ (((handleSubmit st (SubmitOutcome.throwsError m)).1).error = m
      ∧ ((handleSubmit st (SubmitOutcome.throwsError m)).1).summary = ""
      ∧ ((handleSubmit st (SubmitOutcome.throwsError m)).1).isLoading = false)
    ∧ (((handleSubmit st SubmitOutcome.throwsNonError).1).error = "An unexpected error occurred."
      ∧ ((handleSubmit st SubmitOutcome.throwsNonError).1).summary = ""
      ∧ ((handleSubmit st SubmitOutcome.throwsNonError).1).isLoading = false) := by
  have hf : isFailureResult r = true := by simp [isFailureResult, hr]
  refine ⟨⟨?_, ?_, ?_⟩, ⟨?_, ?_, ?_⟩, ⟨?_, ?_, ?_⟩⟩ <;>
    simp [handleSubmit, hin, hf]

/-- Claim C2 witness: the stub result
`"Failed to generate summary. Error: timeout"` lands in Error with that
exact message and empty summary, and so do both rejection shapes. -/
theorem handleSubmit_error_state_witness :
    (¬ jsTrim (AppState.mk "An article." "" false "" SummaryLength.medium).inputText = "")
    ∧ startsWithStr "Failed to generate summary. Error: timeout" "Failed" = true
    ∧ ((((handleSubmit (AppState.mk "An article." "" false "" SummaryLength.medium)
          (SubmitOutcome.resolves "Failed to generate summary. Error: timeout")).1).error
            = "Failed to generate summary. Error: timeout"
        ∧ (((handleSubmit (AppState.mk "An article." "" false "" SummaryLength.medium)
          (SubmitOutcome.resolves "Failed to generate summary. Error: timeout")).1).summary = ""
        ∧ (((handleSubmit (AppState.mk "An article." "" false "" SummaryLength.medium)
          (SubmitOutcome.resolves "Failed to generate summary. Error: timeout")).1).isLoading = false)))
      ∧ ((((handleSubmit (AppState.mk "An article." "" false "" SummaryLength.medium)
            (SubmitOutcome.throwsError "network unreachable")).1).error = "network unreachable")
        ∧ (((handleSubmit (AppState.mk "An article." "" false "" SummaryLength.medium)
            (SubmitOutcome.throwsError "network unreachable")).1).summary = "")
        ∧ (((handleSubmit (AppState.mk "An article." "" false "" SummaryLength.medium)
            (SubmitOutcome.throwsError "network unreachable")).1).isLoading = false))
      ∧ ((((handleSubmit (AppState.mk "An article." "" false "" SummaryLength.medium)
            SubmitOutcome.throwsNonError).1).error = "An unexpected error occurred.")
        ∧ (((handleSubmit (AppState.mk "An article." "" false "" SummaryLength.medium)
            SubmitOutcome.throwsNonError).1).summary = "")
        ∧ (((handleSubmit (AppState.mk "An article." "" false "" SummaryLength.medium)
            SubmitOutcome.throwsNonError).1).isLoading = false))) := by
  refine ⟨by decide, by decide, ?_⟩
  exact handleSubmit_error_state _ _ "network unreachable" (by decide) (by decide)

/-- Claim C4: when the trimmed input is empty, the submit action never
invokes the Summarization Client and immediately sets the fixed
validation error message (`App.tsx` lines 79-82). -/
theorem submit_blank_no_call (st : AppState) (o : SubmitOutcome)
    (h : jsTrim st.inputText = "") :
    (handleSubmit st o).2 = false
    ∧ ((handleSubmit st o).1).error = validationMessage := by
  constructor <;> simp [handleSubmit, h]

/-- Claim C4 witness: submitting with the whitespace-only input
`"   "` issues no client call and sets the validation message. -/
theorem submit_blank_no_call_witness :
    jsTrim (AppState.mk "   " "" false "" SummaryLength.medium).inputText = ""
    ∧ ((handleSubmit (AppState.mk "   " "" false "" SummaryLength.medium)
          (SubmitOutcome.resolves "never used")).2 = false
      ∧ ((handleSubmit (AppState.mk "   " "" false "" SummaryLength.medium)
          (SubmitOutcome.resolves "never used")).1).error = validationMessage) := by
  refine ⟨by decide, ?_⟩
  exact submit_blank_no_call _ _ (by decide)

/-- Claim C10: the validation branch sets only `error`; `summary`,
`isLoading`, `inputText` and `summaryLength` are left unchanged, so in
particular a summary from a prior success is not cleared (`App.tsx`
lines 79-82). -/
theorem submit_blank_frame (st : AppState) (o : SubmitOutcome)
    (h : jsTrim st.inputText = "") :
    ((handleSubmit st o).1).summary = st.summary
    ∧ ((handleSubmit st o).1).isLoading = st.isLoading
    ∧ ((handleSubmit st o).1).inputText = st.inputText
    ∧ ((handleSubmit st o).1).summaryLength = st.summaryLength
    ∧ ((handleSubmit st o).1).error = validationMessage := by
  refine ⟨?_, ?_, ?_, ?_, ?_⟩ <;> simp [handleSubmit, h]

/-- Claim C10 witness: a blank submit after a prior success keeps the
old summary `"Previous summary kept."` while setting the validation
message. -/
theorem submit_blank_frame_witness :
    jsTrim (AppState.mk " \t " "Previous summary kept." false "" SummaryLength.long).inputText = ""
    ∧ (((handleSubmit (AppState.mk " \t " "Previous summary kept." false "" SummaryLength.long)
          SubmitOutcome.throwsNonError).1).summary = "Previous summary kept."
      ∧ ((handleSubmit (AppState.mk " \t " "Previous summary kept." false "" SummaryLength.long)
          SubmitOutcome.throwsNonError).1).isLoading = false
      ∧ ((handleSubmit (AppState.mk " \t " "Previous summary kept." false "" SummaryLength.long)
          SubmitOutcome.throwsNonError).1).inputText = " \t "
      ∧ ((handleSubmit (AppState.mk " \t " "Previous summary kept." false "" SummaryLength.long)
          SubmitOutcome.throwsNonError).1).summaryLength = SummaryLength.long
      ∧ ((handleSubmit (AppState.mk " \t " "Previous summary kept." false "" SummaryLength.long)
          SubmitOutcome.throwsNonError).1).error = validationMessage) := by
  refine ⟨by decide, ?_⟩
  exact submit_blank_frame _ _ (by decide)

/-- Claim C5: with no API credential configured, `summarizeText`
resolves with the failure-prefixed configuration sentinel instead of
propagating an exception (`geminiService.ts` lines 30-32, 44-48); the
function is total, so no outcome crashes. -/
theorem summarizeText_missing_credential (api : ApiOutcome) (text : String)
    (length : SummaryLength) :
    summarizeText none api text length
      = "Failed to generate summary. Error: API_KEY environment variable is not set."
    ∧ startsWithStr (summarizeText none api text length) "Failed" = true := by
  have h : summarizeText none api text length
      = "Failed to generate summary. Error: API_KEY environment variable is not set." := rfl
  exact ⟨h, by rw [h]; decide⟩

/-- Claim C6: in every state reachable through the UI, `summary` and
`error` are mutually exclusive — at least one of them is empty, so the
error banner and the summary panel are never displayed together.  Every
enabled submit clears both before settling (`App.tsx` lines 84-86), and
a submit with blank input is impossible because the button is disabled
(`App.tsx` line 139). -/
theorem reachable_summary_error_exclusive (st : AppState) (h : Reachable st) :
    st.summary = "" ∨ st.error = "" := by
  induction h with
  | init => exact Or.inl rfl
  | step hr hstep ih =>
    cases hstep with
    | setText s hta => simpa using ih
    | setLength l => simpa using ih
    | submit o hok =>
      obtain ⟨-, htrim⟩ := submitDisabled_false _ hok
      cases o with
      | resolves r =>
        cases hf : isFailureResult r with
        | false => exact Or.inr (by simp [handleSubmit, htrim, hf])
        | true => exact Or.inl (by simp [handleSubmit, htrim, hf])
      | throwsError m => exact Or.inl (by simp [handleSubmit, htrim])
      | throwsNonError => exact Or.inl (by simp [handleSubmit, htrim])

/-- Claim C6 witness: the initial state is reachable and satisfies the
exclusion. -/
theorem reachable_summary_error_exclusive_witness :
    Reachable initState ∧ (initState.summary = "" ∨ initState.error = "") :=
  ⟨Reachable.init, reachable_summary_error_exclusive initState Reachable.init⟩

/-- Claim C7: whenever `isLoading` is true or the trimmed input is
blank, the rendered submit control is disabled (`App.tsx` line 139), so
no submission can be triggered in such a state. -/
theorem submit_control_disabled (st : AppState)
    (h : st.isLoading = true ∨ jsTrim st.inputText = "") :
    submitDisabled st = true := by
  rcases h with h | h <;> simp [submitDisabled, h]

/-- Claim C7 witness: in a Loading state the submit control is
disabled. -/
theorem submit_control_disabled_witness :
    ((AppState.mk "Pending article." "" true "" SummaryLength.medium).isLoading = true
      ∨ jsTrim (AppState.mk "Pending article." "" true "" SummaryLength.medium).inputText = "")
    ∧ submitDisabled (AppState.mk "Pending article." "" true "" SummaryLength.medium) = true :=
  ⟨Or.inl rfl,
    submit_control_disabled (AppState.mk "Pending article." "" true "" SummaryLength.medium)
      (Or.inl rfl)⟩

/-- Claim C8 counterexample: the rendered textarea is disabled in a
Loading state (`App.tsx` line 114 sets `disabled={isLoading}` on the
textarea), so the textarea does not remain editable while a request is
in flight, contrary to the claim. -/
theorem textarea_disabled_while_loading_cex :
    textareaDisabled
      (AppState.mk "Some article being summarized." "" true "" SummaryLength.medium) = true := rfl

/-- Claim C8 (amended): while `isLoading` is true the rendered textarea
is disabled just like the submit control — loading gates both controls,
not only submit (`App.tsx` lines 114, 139). -/
theorem loading_disables_textarea_and_submit (st : AppState)
    (h : st.isLoading = true) :
    textareaDisabled st = true ∧ submitDisabled st = true := by
  constructor <;> simp [textareaDisabled, submitDisabled, h]

/-- Claim C8 witness: a concrete Loading state has both the textarea
and the submit control disabled. -/
theorem loading_disables_textarea_and_submit_witness :
    (AppState.mk "A draft being summarized." "" true "" SummaryLength.long).isLoading = true
    ∧ (textareaDisabled (AppState.mk "A draft being summarized." "" true "" SummaryLength.long) = true
      ∧ submitDisabled (AppState.mk "A draft being summarized." "" true "" SummaryLength.long) = true) :=
  ⟨rfl,
    loading_disables_textarea_and_submit
      (AppState.mk "A draft being summarized." "" true "" SummaryLength.long) rfl⟩

/-- Claim C9: a resolved result starting with `"An unknown error"` is
classified as a failure — the detection at `App.tsx` line 90 checks the
two prefixes `Failed` and `An unknown error` — so the controller ends
in the Error state, not Success. -/
theorem unknown_error_classified_as_failure (st : AppState) (r : String)
    (hin : ¬ jsTrim st.inputText = "")
    (hr : startsWithStr r "An unknown error" = true) :
    isFailureResult r = true
    ∧ ((handleSubmit st (SubmitOutcome.resolves r)).1).error = r
    ∧ ((handleSubmit st (SubmitOutcome.resolves r)).1).summary = "" := by
  have hf : isFailureResult r = true := by simp [isFailureResult, hr]
  exact ⟨hf, by simp [handleSubmit, hin, hf], by simp [handleSubmit, hin, hf]⟩

/-- Claim C9 witness: the generic unknown-error sentinel produced by
`summarizeText` (`geminiService.ts` line 49) ends in Error, not
Success. -/
theorem unknown_error_classified_as_failure_witness :
    (¬ jsTrim (AppState.mk "Another article." "" false "" SummaryLength.medium).inputText = "")
    ∧ startsWithStr "An unknown error occurred while generating the summary." "An unknown error" = true
    ∧ (isFailureResult "An unknown error occurred while generating the summary." = true
      ∧ ((handleSubmit (AppState.mk "Another article." "" false "" SummaryLength.medium)
            (SubmitOutcome.resolves "An unknown error occurred while generating the summary.")).1).error
          = "An unknown error occurred while generating the summary."
      ∧ ((handleSubmit (AppState.mk "Another article." "" false "" SummaryLength.medium)
            (SubmitOutcome.resolves "An unknown error occurred while generating the summary.")).1).summary
          = "") := by
  refine ⟨by decide, by decide, ?_⟩
  exact unknown_error_classified_as_failure _ _ (by decide) (by decide)

/-- Occurrence of a pattern is preserved by appending on the right. -/
theorem contains_append_left (A B pat : String)
    (h : strContainsB A pat = true) : strContainsB (A ++ B) pat = true := by
  rw [strContainsB_iff] at h ⊢
  obtain ⟨u, v, rfl⟩ := h
  exact ⟨u, v ++ B, String.append_assoc (u ++ pat) v B⟩

/-- Occurrence of a pattern is preserved by appending on the left. -/
theorem contains_append_right (A B pat : String)
    (h : strContainsB B pat = true) : strContainsB (A ++ B) pat = true := by
  rw [strContainsB_iff] at h ⊢
  obtain ⟨u, v, rfl⟩ := h
  refine ⟨A ++ u, v, ?_⟩
  simp [String.append_assoc]

set_option maxRecDepth 16384 in
/-- Claim C3 counterexample: the prompt built for `SHORT` does not
contain the literal phrase `~50 words`; the length directive in the
source reads `(around 50 words)` (`geminiService.ts` line 8), and the
prompt contains no tilde at all. -/
theorem getPrompt_no_tilde_phrase :
    strContainsB (getPrompt "x" SummaryLength.short) "~50 words" = false := by
  decide

/-- Claim C3 (amended): for every input text and each of the three
`SummaryLength` values, `getPrompt` is a (total, deterministic)
function whose output embeds the fixed word-count phrase of the option
— `around 50 words`, `around 150 words`, `around 300 words` — and
contains the input text verbatim, followed by the `SUMMARY:` cue. -/
theorem getPrompt_embeds_phrase_and_text (text : String) (l : SummaryLength) :
    strContainsB (getPrompt text l) (lengthPhrase l) = true
    ∧ ∃ pre : String, getPrompt text l = pre ++ text ++ "\n---\n\nSUMMARY:" := by
  constructor
  · cases l with
    | short =>
      exact contains_append_left _ _ _ (contains_append_left _ _ _
        (contains_append_left _ _ _ (contains_append_right _ _ _ (by decide))))
    | medium =>
      exact contains_append_left _ _ _ (contains_append_left _ _ _
        (contains_append_left _ _ _ (contains_append_right _ _ _ (by decide))))
    | long =>
      exact contains_append_left _ _ _ (contains_append_left _ _ _
        (contains_append_left _ _ _ (contains_append_right _ _ _ (by decide))))
  · cases l with
    | short => exact ⟨_, rfl⟩
    | medium => exact ⟨_, rfl⟩
    | long => exact ⟨_, rfl⟩
